import Mathlib

/-!
Shallow embedding of the Freelance Workflow Engine (Project.cpp).

Modelling conventions:
- C++ `double` currency/hours/rate scalars are modelled as exact rationals (ℚ);
  the source performs single multiplications and comparisons only.
- C++ exceptions are modelled with `Except`: a method that can throw is embedded
  in explicit state-passing style, returning the error/unit outcome together with
  the object state after the call (a throw happens before any mutation in every
  source method, so on error the state is returned unchanged).
- Raw pointers (`User*`, `Milestone*`, `Payment*`, `Logger*`) are `Option _`;
  dereferencing `none` is undefined behaviour in C++ and is modelled as a
  distinct, uncatchable `UBSite` outcome (it is not a C++ exception).
- Console and file output relevant to the claims is recorded as a trace of
  `Event`s: user/milestone display, milestone completion, payment processing,
  receipt logging, and the error report written by the catch handler.
- Whether the log file can be opened (`ofstream.is_open`) is an environment
  input, passed as a boolean `fileOk`.
-/

/-- The domain exception kinds of Project.cpp: `InvalidHoursException`,
`NullPointerException`, `PaymentFailureException`, and the generic
`runtime_error("Unable to open log file")` thrown by the logger. -/
inductive WError
  | invalidHours
  | nullPointer
  | paymentFailure
  | fileError
deriving DecidableEq, Repr

/-- Sites in `executeProjectWorkflow` where a null pointer is dereferenced
without a preceding check (undefined behaviour in the C++ source). -/
inductive UBSite
  | paymentDeref
  | loggerDeref
deriving DecidableEq, Repr

/-- How a workflow body run ends abnormally: a thrown C++ exception (`exc`,
catchable by `catch (const exception&)`) or undefined behaviour (`ub`). -/
inductive RunError
  | exc (e : WError)
  | ub (site : UBSite)
deriving DecidableEq, Repr

-- Identity value types (Client / Freelancer), inert data as in the source.
structure Client where
  name : String
  email : String
  companyName : String
deriving DecidableEq, Repr

structure Freelancer where
  name : String
  email : String
  skillSet : String
  hourlyRate : ℚ
deriving DecidableEq, Repr

/-- The `User` hierarchy: abstract base with the two concrete variants. -/
inductive User
  | client (c : Client)
  | freelancer (f : Freelancer)
deriving DecidableEq, Repr

/-- The `Payment` hierarchy (`Escrow`, `Direct`); each carries the `amount`
fixed at construction. -/
inductive Payment
  | escrow (amount : ℚ)
  | direct (amount : ℚ)
deriving DecidableEq, Repr

/-- The protected `amount` field of `Payment`. -/
def Payment.amount : Payment → ℚ
  | .escrow a => a
  | .direct a => a

/-- `Payment::getAmount()`. -/
def Payment.getAmount (p : Payment) : ℚ := p.amount

/-- `getPaymentType()`: the stable string discriminator of each variant. -/
def Payment.getPaymentType : Payment → String
  | .escrow _ => "Escrow"
  | .direct _ => "Direct"

/-- Observable events of a workflow run (console narration and file output
that the claims refer to). -/
inductive Event
  | displayedUser (u : User)
  | displayedMilestone (title descr : String) (completed : Bool) (paymentType : String)
  | milestoneCompleted (title : String)
  | processedPayment (paymentType : String) (amount : ℚ)
  | loggedReceipt (fileName title : String) (amount : ℚ) (paymentType : String)
  | errorReported (e : WError)
deriving DecidableEq, Repr

/-- `processPayment()`: prints the transfer-mechanism notice with the payment's
own stored `amount`; performs no validation and cannot fail. -/
def Payment.processPayment (p : Payment) : Event :=
  Event.processedPayment p.getPaymentType p.amount

-- Milestone hierarchy. `paymentMethod` is a raw `Payment*` in the source.
structure FixedPriceMilestone where
  title : String
  descr : String
  isCompleted : Bool
  paymentMethod : Option Payment
  fixedAmount : ℚ
deriving DecidableEq, Repr

structure HourlyMilestone where
  title : String
  descr : String
  isCompleted : Bool
  paymentMethod : Option Payment
  hoursWorked : ℚ
  hourlyRate : ℚ
deriving DecidableEq, Repr

/-- `FixedPriceMilestone(title, desc, payment, amount)`: the base-class
constructor sets `isCompleted(false)`. -/
def FixedPriceMilestone.construct (title descr : String) (payment : Option Payment)
    (amount : ℚ) : FixedPriceMilestone :=
  { title := title, descr := descr, isCompleted := false,
    paymentMethod := payment, fixedAmount := amount }

/-- `HourlyMilestone(title, desc, payment, rate)`: sets `hoursWorked(0.0)` and
`isCompleted(false)`. -/
def HourlyMilestone.construct (title descr : String) (payment : Option Payment)
    (rate : ℚ) : HourlyMilestone :=
  { title := title, descr := descr, isCompleted := false,
    paymentMethod := payment, hoursWorked := 0, hourlyRate := rate }

/-- `FixedPriceMilestone::calculatePayment()`: `fixedAmount` once completed,
else `0.0`. -/
def FixedPriceMilestone.calculatePayment (m : FixedPriceMilestone) : ℚ :=
  if m.isCompleted then m.fixedAmount else 0

/-- `HourlyMilestone::calculatePayment()`: `hoursWorked * hourlyRate` once
completed, else `0.0`. -/
def HourlyMilestone.calculatePayment (m : HourlyMilestone) : ℚ :=
  if m.isCompleted then m.hoursWorked * m.hourlyRate else 0

/-- `FixedPriceMilestone::complete()`: unconditionally sets
`isCompleted = true` (then prints; it cannot throw). -/
def FixedPriceMilestone.complete (m : FixedPriceMilestone) :
    Except WError Unit × FixedPriceMilestone :=
  (Except.ok (), { m with isCompleted := true })

/-- `HourlyMilestone::complete()`: throws `InvalidHoursException` when
`hoursWorked <= 0`, before any mutation; otherwise sets `isCompleted = true`. -/
def HourlyMilestone.complete (m : HourlyMilestone) :
    Except WError Unit × HourlyMilestone :=
  if m.hoursWorked ≤ 0 then (Except.error WError.invalidHours, m)
  else (Except.ok (), { m with isCompleted := true })

/-- `HourlyMilestone::setHoursWorked(hours)`: throws `InvalidHoursException`
when `hours < 0`, before any mutation; otherwise stores `hours`. -/
def HourlyMilestone.setHoursWorked (m : HourlyMilestone) (hours : ℚ) :
    Except WError Unit × HourlyMilestone :=
  if hours < 0 then (Except.error WError.invalidHours, m)
  else (Except.ok (), { m with hoursWorked := hours })

/-- A `Milestone*` target is one of the two concrete variants. -/
inductive Milestone
  | fixed (m : FixedPriceMilestone)
  | hourly (m : HourlyMilestone)
deriving DecidableEq, Repr

/-- `Milestone::getTitle()`. -/
def Milestone.title : Milestone → String
  | .fixed m => m.title
  | .hourly m => m.title

def Milestone.descr : Milestone → String
  | .fixed m => m.descr
  | .hourly m => m.descr

/-- `Milestone::getIsCompleted()`. -/
def Milestone.getIsCompleted : Milestone → Bool
  | .fixed m => m.isCompleted
  | .hourly m => m.isCompleted

/-- The public `paymentMethod` field of the milestone base class. -/
def Milestone.paymentMethod : Milestone → Option Payment
  | .fixed m => m.paymentMethod
  | .hourly m => m.paymentMethod

/-- Virtual dispatch of `calculatePayment()`. -/
def Milestone.calculatePayment : Milestone → ℚ
  | .fixed m => m.calculatePayment
  | .hourly m => m.calculatePayment

/-- `calculatePayment()` rendered in explicit state-passing style: the virtual
method's bodies only read fields (`isCompleted`, `fixedAmount`, `hoursWorked`,
`hourlyRate`) and return a value, so the returned object state is the input
state. Used to state purity of the query. -/
def Milestone.calculatePaymentSt (m : Milestone) : ℚ × Milestone :=
  match m with
  | .fixed f => (if f.isCompleted then f.fixedAmount else 0, m)
  | .hourly h => (if h.isCompleted then h.hoursWorked * h.hourlyRate else 0, m)

/-- Virtual dispatch of `complete()`. -/
def Milestone.complete : Milestone → Except WError Unit × Milestone
  | .fixed m => (m.complete.1, .fixed m.complete.2)
  | .hourly m => (m.complete.1, .hourly m.complete.2)

structure Logger where
  logFileName : String
deriving DecidableEq, Repr

/-- `Logger::logPaymentReceipt(milestoneTitle, amount, paymentType)`: opens the
log file in append mode; throws `runtime_error("Unable to open log file")` when
it cannot be opened (`fileOk = false`), otherwise appends the receipt block.
The written record is the `loggedReceipt` event. -/
def Logger.logPaymentReceipt (lg : Logger) (milestoneTitle : String) (amount : ℚ)
    (paymentType : String) (fileOk : Bool) : Except WError Event :=
  if fileOk then
    Except.ok (Event.loggedReceipt lg.logFileName milestoneTitle amount paymentType)
  else Except.error WError.fileError

/-- The `Project` orchestrator: all collaborator fields are raw pointers. -/
structure Project where
  projectName : String
  client : Option User
  freelancer : Option User
  milestone : Option Milestone
  logger : Option Logger
deriving DecidableEq, Repr

/-- The `try` block of `Project::executeProjectWorkflow()` (steps 1-7), with
the events emitted so far and the project state returned on every exit path:
1. `throw NullPointerException()` if client, freelancer or milestone is null;
2. display client and freelancer;
3. `displayMilestone()` — dereferences `paymentMethod` for the type label;
4. `milestone->complete()` — may throw `InvalidHoursException`;
5. `paymentAmount = milestone->calculatePayment()`; `throw
   PaymentFailureException()` if `paymentAmount <= 0`;
6. `milestone->paymentMethod->processPayment()`;
7. `logger->logPaymentReceipt(...)` — dereferences `logger` without a check.
-/
def workflowSteps (p : Project) (fileOk : Bool) :
    Except RunError Unit × List Event × Project :=
  match p.client, p.freelancer, p.milestone with
  | some c, some f, some m =>
    let ev1 := [Event.displayedUser c, Event.displayedUser f]
    match m.paymentMethod with
    | none => (Except.error (RunError.ub UBSite.paymentDeref), ev1, p)
    | some pay =>
      let ev2 := ev1 ++ [Event.displayedMilestone m.title m.descr m.getIsCompleted
        pay.getPaymentType]
      let cres := m.complete
      let p' := { p with milestone := some cres.2 }
      match cres.1 with
      | Except.error e => (Except.error (RunError.exc e), ev2, p')
      | Except.ok () =>
        let ev3 := ev2 ++ [Event.milestoneCompleted cres.2.title]
        let paymentAmount := cres.2.calculatePayment
        if paymentAmount ≤ 0 then
          (Except.error (RunError.exc WError.paymentFailure), ev3, p')
        else
          match cres.2.paymentMethod with
          | none => (Except.error (RunError.ub UBSite.paymentDeref), ev3, p')
          | some pay' =>
            let ev4 := ev3 ++ [pay'.processPayment]
            match p.logger with
            | none => (Except.error (RunError.ub UBSite.loggerDeref), ev4, p')
            | some lg =>
              match lg.logPaymentReceipt cres.2.title paymentAmount
                  pay'.getPaymentType fileOk with
              | Except.error e => (Except.error (RunError.exc e), ev4, p')
              | Except.ok rec => (Except.ok (), ev4 ++ [rec], p')
  | _, _, _ => (Except.error (RunError.exc WError.nullPointer), [], p)

/-- How `executeProjectWorkflow()` ends: normal completion, a domain exception
caught by the single `catch (const exception&)` boundary (and reported to
`cerr`), or a crash from dereferencing a null pointer (undefined behaviour,
which no `catch` clause intercepts). -/
inductive Outcome
  | success
  | caught (e : WError)
  | crashed (site : UBSite)
deriving DecidableEq, Repr

/-- `Project::executeProjectWorkflow()`: runs the `try` block; every thrown
exception is caught at this single boundary and reported on the error channel
(`errorReported` event), after which the call returns normally. -/
def executeProjectWorkflow (p : Project) (fileOk : Bool) :
    Outcome × List Event × Project :=
  match workflowSteps p fileOk with
  | (Except.ok (), tr, p') => (Outcome.success, tr, p')
  | (Except.error (RunError.exc e), tr, p') =>
      (Outcome.caught e, tr ++ [Event.errorReported e], p')
  | (Except.error (RunError.ub s), tr, p') => (Outcome.crashed s, tr, p')

/-! ## Claims about the milestone state machine -/

/-- C3: for every `HourlyMilestone`, `complete()` fails with
`InvalidHoursException` if and only if `hoursWorked ≤ 0` at call time; on
failure the object is unchanged (so a pending milestone remains pending);
when `hoursWorked > 0`, `complete()` succeeds and transitions to Completed. -/
theorem hourly_complete_spec (m : HourlyMilestone) :
    (m.complete.1 = Except.error WError.invalidHours ↔ m.hoursWorked ≤ 0) ∧
    (m.hoursWorked ≤ 0 → m.complete.2 = m) ∧
    (m.isCompleted = false → m.hoursWorked ≤ 0 → m.complete.2.isCompleted = false) ∧
    (0 < m.hoursWorked →
      m.complete.1 = Except.ok () ∧ m.complete.2.isCompleted = true) := by
  by_cases h : m.hoursWorked ≤ 0
  · refine ⟨?_, ?_, ?_, ?_⟩
    · simp [HourlyMilestone.complete, h]
    · intro _; simp [HourlyMilestone.complete, h]
    · intro hc _; simp [HourlyMilestone.complete, h, hc]
    · intro hpos; exact absurd hpos (not_lt.mpr h)
  · refine ⟨?_, ?_, ?_, ?_⟩
    · simp [HourlyMilestone.complete, h]
    · intro hc; exact absurd hc h
    · intro _ hc; exact absurd hc h
    · intro _; simp [HourlyMilestone.complete, h]

/-- C3 witness: a concrete hourly milestone with `hoursWorked = 0`. -/
theorem hourly_complete_spec_witness :
    ((HourlyMilestone.construct "t" "d" (some (Payment.direct 0)) 50).complete.2
      = HourlyMilestone.construct "t" "d" (some (Payment.direct 0)) 50) :=
  (hourly_complete_spec
    (HourlyMilestone.construct "t" "d" (some (Payment.direct 0)) 50)).2.1 (by norm_num [HourlyMilestone.construct])

/-- C4: for every `HourlyMilestone` and every `h`, `setHoursWorked(h)` fails
with `InvalidHoursException` exactly when `h < 0`; on failure the stored
`hoursWorked` is unchanged; for `h ≥ 0` it succeeds and stores `h`. -/
theorem setHoursWorked_spec (m : HourlyMilestone) (h : ℚ) :
    ((m.setHoursWorked h).1 = Except.error WError.invalidHours ↔ h < 0) ∧
    (h < 0 → (m.setHoursWorked h).2 = m) ∧
    (0 ≤ h → (m.setHoursWorked h).1 = Except.ok () ∧
      (m.setHoursWorked h).2.hoursWorked = h) := by
  by_cases hneg : h < 0
  · refine ⟨?_, ?_, ?_⟩
    · simp [HourlyMilestone.setHoursWorked, hneg]
    · intro _; simp [HourlyMilestone.setHoursWorked, hneg]
    · intro hc; exact absurd hneg (not_lt.mpr hc)
  · refine ⟨?_, ?_, ?_⟩
    · simp [HourlyMilestone.setHoursWorked, hneg]
    · intro hc; exact absurd hc hneg
    · intro _; simp [HourlyMilestone.setHoursWorked, hneg]

/-- C4 witness: `setHoursWorked(0)` succeeds, `setHoursWorked(-1)` fails and
leaves the stored hours unchanged. -/
theorem setHoursWorked_spec_witness :
    ((HourlyMilestone.construct "t" "d" none 50).setHoursWorked 0).1 = Except.ok () ∧
    ((HourlyMilestone.construct "t" "d" none 50).setHoursWorked (-1)).2
      = HourlyMilestone.construct "t" "d" none 50 :=
  ⟨((setHoursWorked_spec (HourlyMilestone.construct "t" "d" none 50) 0).2.2
      (by norm_num)).1,
    (setHoursWorked_spec (HourlyMilestone.construct "t" "d" none 50) (-1)).2.1
      (by norm_num)⟩

/-- C5: for every `FixedPriceMilestone` constructed with amount `A > 0`,
`calculatePayment()` is `0` before `complete()` and `A` after; and for every
`FixedPriceMilestone` in any state, `complete()` never fails and
unconditionally transitions to Completed. -/
theorem fixedPrice_payment_spec (title descr : String) (payment : Option Payment)
    (A : ℚ) (hA : 0 < A) :
    (FixedPriceMilestone.construct title descr payment A).calculatePayment = 0 ∧
    ((FixedPriceMilestone.construct title descr payment A).complete.2).calculatePayment
      = A ∧
    (∀ m : FixedPriceMilestone,
      m.complete.1 = Except.ok () ∧ m.complete.2.isCompleted = true) := by
  refine ⟨?_, ?_, fun m => ⟨rfl, rfl⟩⟩
  · simp [FixedPriceMilestone.construct, FixedPriceMilestone.calculatePayment]
  · simp [FixedPriceMilestone.construct, FixedPriceMilestone.complete,
      FixedPriceMilestone.calculatePayment]

/-- C5 witness: the demo milestone with amount 2500. -/
theorem fixedPrice_payment_spec_witness :
    (FixedPriceMilestone.construct "Website" "Full stack"
      (some (Payment.escrow 2500)) 2500).calculatePayment = 0 ∧
    ((FixedPriceMilestone.construct "Website" "Full stack"
      (some (Payment.escrow 2500)) 2500).complete.2).calculatePayment = 2500 :=
  ⟨(fixedPrice_payment_spec "Website" "Full stack" (some (Payment.escrow 2500))
      2500 (by norm_num)).1,
    (fixedPrice_payment_spec "Website" "Full stack" (some (Payment.escrow 2500))
      2500 (by norm_num)).2.1⟩

/-- C6: for every milestone of either variant, `calculatePayment()` returns 0
whenever the milestone is not completed, and the query leaves the milestone's
entire state unchanged. -/
theorem calculatePayment_pending_and_pure (m : Milestone) :
    (m.getIsCompleted = false → m.calculatePaymentSt.1 = 0) ∧
    m.calculatePaymentSt.2 = m ∧
    m.calculatePaymentSt.1 = m.calculatePayment := by
  cases m with
  | fixed f =>
    refine ⟨?_, rfl, ?_⟩
    · intro h
      simp [Milestone.getIsCompleted] at h
      simp [Milestone.calculatePaymentSt, h]
    · simp [Milestone.calculatePaymentSt, Milestone.calculatePayment,
        FixedPriceMilestone.calculatePayment]
  | hourly h =>
    refine ⟨?_, rfl, ?_⟩
    · intro hc
      simp [Milestone.getIsCompleted] at hc
      simp [Milestone.calculatePaymentSt, hc]
    · simp [Milestone.calculatePaymentSt, Milestone.calculatePayment,
        HourlyMilestone.calculatePayment]

/-- C6 witness: a concrete pending hourly milestone. -/
theorem calculatePayment_pending_and_pure_witness :
    (Milestone.hourly (HourlyMilestone.construct "t" "d" none 50)).calculatePaymentSt.1
      = 0 :=
  (calculatePayment_pending_and_pure
    (Milestone.hourly (HourlyMilestone.construct "t" "d" none 50))).1 rfl

/-- C7: for every `HourlyMilestone` constructed with rate `r` whose hours were
then set to `h > 0`, `complete()` succeeds and `calculatePayment()` afterwards
equals `h * r` exactly (scalars modelled as exact rationals). -/
theorem hourly_payment_formula (title descr : String) (payment : Option Payment)
    (r h : ℚ) (hpos : 0 < h) :
    (((HourlyMilestone.construct title descr payment r).setHoursWorked h).2.complete).1
      = Except.ok () ∧
    ((((HourlyMilestone.construct title descr payment r).setHoursWorked h).2.complete).2).calculatePayment
      = h * r := by
  have hset : ((HourlyMilestone.construct title descr payment r).setHoursWorked h).2
      = { title := title, descr := descr, isCompleted := false,
          paymentMethod := payment, hoursWorked := h, hourlyRate := r } := by
    simp [HourlyMilestone.construct, HourlyMilestone.setHoursWorked,
      not_lt.mpr hpos.le]
  rw [hset]
  constructor
  · simp [HourlyMilestone.complete, not_le.mpr hpos]
  · simp [HourlyMilestone.complete, not_le.mpr hpos,
      HourlyMilestone.calculatePayment]

/-- C7 witness: rate 50, hours 2 gives payment 100. -/
theorem hourly_payment_formula_witness :
    ((((HourlyMilestone.construct "t" "d" none 50).setHoursWorked 2).2.complete).2).calculatePayment
      = 2 * 50 :=
  (hourly_payment_formula "t" "d" none 50 2 (by norm_num)).2

/-- C8: calling `complete()` a second time on an already-completed
`FixedPriceMilestone` with configured amount `A` is accepted (returns
normally) and does not change `calculatePayment()`: it still returns `A`. -/
theorem fixedPrice_complete_idempotent (title descr : String)
    (payment : Option Payment) (A : ℚ) :
    ((FixedPriceMilestone.construct title descr payment A).complete.2.complete).1
      = Except.ok () ∧
    ((FixedPriceMilestone.construct title descr payment A).complete.2).calculatePayment
      = A ∧
    (((FixedPriceMilestone.construct title descr payment A).complete.2.complete).2).calculatePayment
      = A := by
  refine ⟨rfl, ?_, ?_⟩ <;>
    simp [FixedPriceMilestone.construct, FixedPriceMilestone.complete,
      FixedPriceMilestone.calculatePayment]

/-! ## Claims about the workflow orchestrator -/

/-- `complete()` does not touch the `paymentMethod` field in either variant. -/
lemma complete_preserves_paymentMethod (m : Milestone) :
    m.complete.2.paymentMethod = m.paymentMethod := by
  cases m with
  | fixed f =>
    simp [Milestone.complete, Milestone.paymentMethod, FixedPriceMilestone.complete]
  | hourly h =>
    simp only [Milestone.complete, Milestone.paymentMethod, HourlyMilestone.complete]
    split <;> rfl

/-- The `try`-block trace never contains an `errorReported` event: that event
is only appended by the catch handler. -/
lemma steps_no_errorReported (p : Project) (fileOk : Bool) (e : WError) :
    Event.errorReported e ∉ (workflowSteps p fileOk).2.1 := by
  obtain ⟨pn, pc, pf, pm, pl⟩ := p
  cases pc with
  | none => simp [workflowSteps]
  | some c =>
  cases pf with
  | none => simp [workflowSteps]
  | some f =>
  cases pm with
  | none => simp [workflowSteps]
  | some m =>
  simp only [workflowSteps]
  cases hpm : m.paymentMethod with
  | none => simp
  | some pay =>
  simp only
  cases hc : m.complete.1 with
  | error err => simp
  | ok u =>
  simp only
  split
  · simp
  · cases hpm2 : m.complete.2.paymentMethod with
    | none => simp
    | some pay2 =>
      simp only
      cases pl with
      | none => simp [Payment.processPayment]
      | some lg =>
        simp only [Logger.logPaymentReceipt]
        cases fileOk <;> simp [Payment.processPayment]

/-- C1: if the client, freelancer, or milestone reference is absent, or if
`calculatePayment()` after milestone completion is ≤ 0, then no
`processPayment()` call and no `logPaymentReceipt()` record occurs anywhere in
that run of `executeProjectWorkflow()`. -/
theorem workflow_guard_blocks_payment (p : Project) (fileOk : Bool)
    (hguard : p.client = none ∨ p.freelancer = none ∨ p.milestone = none ∨
      (∃ m, p.milestone = some m ∧ m.complete.1 = Except.ok () ∧
        m.complete.2.calculatePayment ≤ 0)) :
    ∀ ev ∈ (executeProjectWorkflow p fileOk).2.1,
      (∀ pt a, ev ≠ Event.processedPayment pt a) ∧
      (∀ fn t a pt, ev ≠ Event.loggedReceipt fn t a pt) := by
  obtain ⟨pn, pc, pf, pm, pl⟩ := p
  cases pc with
  | none => simp [executeProjectWorkflow, workflowSteps]
  | some c =>
  cases pf with
  | none => simp [executeProjectWorkflow, workflowSteps]
  | some f =>
  cases pm with
  | none => simp [executeProjectWorkflow, workflowSteps]
  | some m =>
  rcases hguard with h | h | h | ⟨m', hm', hok, hle⟩
  · exact absurd h (by simp)
  · exact absurd h (by simp)
  · exact absurd h (by simp)
  obtain rfl : m = m' := by
    simpa using hm'
  cases hpm : m.paymentMethod with
  | none =>
    have hsteps : workflowSteps ⟨pn, some c, some f, some m, pl⟩ fileOk
        = (Except.error (RunError.ub UBSite.paymentDeref),
           [Event.displayedUser c, Event.displayedUser f],
           ⟨pn, some c, some f, some m, pl⟩) := by
      simp [workflowSteps, hpm]
    simp [executeProjectWorkflow, hsteps]
  | some pay =>
    have hsteps : workflowSteps ⟨pn, some c, some f, some m, pl⟩ fileOk
        = (Except.error (RunError.exc WError.paymentFailure),
           [Event.displayedUser c, Event.displayedUser f,
            Event.displayedMilestone m.title m.descr m.getIsCompleted
              pay.getPaymentType,
            Event.milestoneCompleted m.complete.2.title],
           { projectName := pn, client := some c, freelancer := some f,
             milestone := some m.complete.2, logger := pl }) := by
      simp only [workflowSteps, hpm]
      rw [hok, if_pos hle]
      simp
    simp [executeProjectWorkflow, hsteps]

/-- C1 witness: a project with all references absent, evaluated at the one
event of its trace. -/
theorem workflow_guard_blocks_payment_witness :
    Event.errorReported WError.nullPointer ≠ Event.processedPayment "Escrow" 0 :=
  (workflow_guard_blocks_payment
    { projectName := "Test", client := none, freelancer := none,
      milestone := none, logger := none } true (Or.inl rfl)
    (Event.errorReported WError.nullPointer)
    (by simp [executeProjectWorkflow, workflowSteps])).1 "Escrow" 0

/-- The outcome of `executeProjectWorkflow` is determined by the first
component of `workflowSteps`. -/
lemma execute_fst (p : Project) (fileOk : Bool) :
    (executeProjectWorkflow p fileOk).1 =
      match (workflowSteps p fileOk).1 with
      | Except.ok _ => Outcome.success
      | Except.error (RunError.exc e) => Outcome.caught e
      | Except.error (RunError.ub s) => Outcome.crashed s := by
  rcases hws : workflowSteps p fileOk with ⟨r, tr, q⟩
  cases r with
  | ok uu => cases uu; simp [executeProjectWorkflow, hws]
  | error re => cases re <;> simp [executeProjectWorkflow, hws]

/-- C2: any of the four exception kinds raised inside the workflow body is
caught at the single boundary of `executeProjectWorkflow()`: the call returns
normally with outcome `caught e`, the error is reported exactly once on the
error channel, and nothing is re-raised to the caller. -/
theorem workflow_catches_all_exceptions (p : Project) (fileOk : Bool)
    (e : WError) (tr : List Event) (q : Project)
    (hraise : workflowSteps p fileOk = (Except.error (RunError.exc e), tr, q)) :
    executeProjectWorkflow p fileOk
      = (Outcome.caught e, tr ++ [Event.errorReported e], q) ∧
    (tr ++ [Event.errorReported e]).count (Event.errorReported e) = 1 := by
  have hmem : Event.errorReported e ∉ tr := by
    have hno := steps_no_errorReported p fileOk e
    rw [hraise] at hno
    exact hno
  refine ⟨by simp [executeProjectWorkflow, hraise], ?_⟩
  rw [List.count_append, List.count_eq_zero.mpr hmem]
  simp

/-- C2 witness: the null-wiring project raises `NullPointerException`, which is
caught and reported once. -/
theorem workflow_catches_all_exceptions_witness :
    executeProjectWorkflow
        { projectName := "Test Project", client := none, freelancer := none,
          milestone := none, logger := none } true
      = (Outcome.caught WError.nullPointer,
         [] ++ [Event.errorReported WError.nullPointer],
         { projectName := "Test Project", client := none, freelancer := none,
           milestone := none, logger := none }) :=
  (workflow_catches_all_exceptions
    { projectName := "Test Project", client := none, freelancer := none,
      milestone := none, logger := none } true WError.nullPointer []
    { projectName := "Test Project", client := none, freelancer := none,
      milestone := none, logger := none } rfl).1

/-- The only exception `complete()` can raise is `InvalidHoursException`. -/
lemma complete_error_is_invalidHours (m : Milestone) (e : WError)
    (h : m.complete.1 = Except.error e) : e = WError.invalidHours := by
  cases m with
  | fixed f =>
    simp [Milestone.complete, FixedPriceMilestone.complete] at h
  | hourly hm =>
    simp only [Milestone.complete, HourlyMilestone.complete] at h
    by_cases hw : hm.hoursWorked ≤ 0
    · rw [if_pos hw] at h
      exact (Except.error.injEq _ _).mp h.symm
    · rw [if_neg hw] at h
      exact absurd h (by simp)

/-- A project whose client, freelancer and milestone are present, whose logger
is absent, and whose hourly milestone still has the default `hoursWorked = 0`. -/
def hourlyZeroNoLogger : Project :=
  { projectName := "Test Project",
    client := some (User.client ⟨"Test Client", "test@test.com", "TestCo"⟩),
    freelancer := some (User.freelancer
      ⟨"Test Freelancer", "test@free.com", "Testing", 50⟩),
    milestone := some (Milestone.hourly
      (HourlyMilestone.construct "Test Milestone" "Testing exceptions"
        (some (Payment.direct 0)) 50)),
    logger := none }

/-- C9 counterexample: with client, freelancer and milestone present and the
logger absent, the check does pass and `NullPointerException` is not raised,
but execution does NOT always proceed to dereferencing the absent logger: on
this input `complete()` throws `InvalidHoursException` first and the run ends
at the catch boundary, never reaching the receipt-logging step. -/
theorem absent_logger_not_always_dereferenced :
    hourlyZeroNoLogger.client ≠ none ∧ hourlyZeroNoLogger.freelancer ≠ none ∧
    hourlyZeroNoLogger.milestone ≠ none ∧ hourlyZeroNoLogger.logger = none ∧
    (executeProjectWorkflow hourlyZeroNoLogger true).1
      = Outcome.caught WError.invalidHours ∧
    (executeProjectWorkflow hourlyZeroNoLogger true).1
      ≠ Outcome.crashed UBSite.loggerDeref := by
  refine ⟨by simp [hourlyZeroNoLogger], by simp [hourlyZeroNoLogger],
    by simp [hourlyZeroNoLogger], rfl, ?_, ?_⟩ <;> decide

/-- C9 (amended): the precondition check covers only client, freelancer and
milestone, not the logger. For every state with those three present and the
logger absent, `NullPointerException` is not raised; and whenever the
milestone's payment method is present, `complete()` succeeds and the computed
amount is positive, execution reaches the receipt-logging step and crashes
dereferencing the absent logger. -/
theorem absent_logger_unchecked (p : Project) (fileOk : Bool)
    (u v : User) (m : Milestone)
    (hc : p.client = some u) (hf : p.freelancer = some v)
    (hm : p.milestone = some m) (hl : p.logger = none) :
    (executeProjectWorkflow p fileOk).1 ≠ Outcome.caught WError.nullPointer ∧
    (∀ pay, m.paymentMethod = some pay → m.complete.1 = Except.ok () →
      0 < m.complete.2.calculatePayment →
      (executeProjectWorkflow p fileOk).1 = Outcome.crashed UBSite.loggerDeref) := by
  have hfst := execute_fst p fileOk
  cases hpm : m.paymentMethod with
  | none =>
    have h1 : (workflowSteps p fileOk).1
        = Except.error (RunError.ub UBSite.paymentDeref) := by
      simp [workflowSteps, hc, hf, hm, hpm]
    rw [h1] at hfst
    exact ⟨by rw [hfst]; simp, fun pay hpay => Option.noConfusion hpay⟩
  | some pay0 =>
    cases hres : m.complete.1 with
    | error e =>
      have he := complete_error_is_invalidHours m e hres
      subst he
      have h1 : (workflowSteps p fileOk).1
          = Except.error (RunError.exc WError.invalidHours) := by
        simp [workflowSteps, hc, hf, hm, hpm, hres]
      rw [h1] at hfst
      exact ⟨by rw [hfst]; simp, fun pay hpay hok => Except.noConfusion hok⟩
    | ok uu =>
      cases uu
      by_cases hle : m.complete.2.calculatePayment ≤ 0
      · have h1 : (workflowSteps p fileOk).1
            = Except.error (RunError.exc WError.paymentFailure) := by
          simp only [workflowSteps, hc, hf, hm, hpm, hres]
          rw [if_pos hle]
        rw [h1] at hfst
        refine ⟨by rw [hfst]; simp, fun pay hpay hok hpos => ?_⟩
        exact absurd hpos (not_lt.mpr hle)
      · have hpm2 : m.complete.2.paymentMethod = some pay0 := by
          rw [complete_preserves_paymentMethod]; exact hpm
        have h1 : (workflowSteps p fileOk).1
            = Except.error (RunError.ub UBSite.loggerDeref) := by
          simp only [workflowSteps, hc, hf, hm, hpm, hres]
          rw [if_neg hle]
          simp [hpm2, hl]
        rw [h1] at hfst
        exact ⟨by rw [hfst]; simp, fun pay hpay hok hpos => by rw [hfst]⟩

/-- C9 witness: an hourly milestone with positive hours, present payment
method and absent logger crashes at the logger dereference. -/
theorem absent_logger_unchecked_witness :
    (executeProjectWorkflow
        { projectName := "P",
          client := some (User.client ⟨"c", "ce", "co"⟩),
          freelancer := some (User.freelancer ⟨"f", "fe", "sk", 50⟩),
          milestone := some (Milestone.hourly
            ((HourlyMilestone.construct "t" "d" (some (Payment.direct 0))
              50).setHoursWorked 2).2),
          logger := none } true).1
      = Outcome.crashed UBSite.loggerDeref :=
  (absent_logger_unchecked
    { projectName := "P",
      client := some (User.client ⟨"c", "ce", "co"⟩),
      freelancer := some (User.freelancer ⟨"f", "fe", "sk", 50⟩),
      milestone := some (Milestone.hourly
        ((HourlyMilestone.construct "t" "d" (some (Payment.direct 0))
          50).setHoursWorked 2).2),
      logger := none } true
    (User.client ⟨"c", "ce", "co"⟩) (User.freelancer ⟨"f", "fe", "sk", 50⟩)
    (Milestone.hourly ((HourlyMilestone.construct "t" "d"
      (some (Payment.direct 0)) 50).setHoursWorked 2).2)
    rfl rfl rfl rfl).2 (Payment.direct 0) rfl rfl (by norm_num [Milestone.complete,
      Milestone.calculatePayment, HourlyMilestone.construct,
      HourlyMilestone.setHoursWorked, HourlyMilestone.complete,
      HourlyMilestone.calculatePayment])

/-- The trace of `executeProjectWorkflow` is the `try`-block trace, extended by
one `errorReported` event exactly when an exception was caught. -/
lemma exec_trace (p : Project) (fileOk : Bool) :
    (executeProjectWorkflow p fileOk).2.1 = (workflowSteps p fileOk).2.1 ∨
    ∃ e, (executeProjectWorkflow p fileOk).2.1
      = (workflowSteps p fileOk).2.1 ++ [Event.errorReported e] := by
  rcases hws : workflowSteps p fileOk with ⟨r, tr, q⟩
  cases r with
  | ok uu => cases uu; left; simp [executeProjectWorkflow, hws]
  | error re =>
    cases re with
    | exc e => right; exact ⟨e, by simp [executeProjectWorkflow, hws]⟩
    | ub s => left; simp [executeProjectWorkflow, hws]

/-- Any receipt record in the `try`-block trace carries exactly the value of
`calculatePayment()` on the completed milestone. -/
lemma steps_loggedReceipt (p : Project) (fileOk : Bool)
    (fn t : String) (a : ℚ) (pt : String)
    (hmem : Event.loggedReceipt fn t a pt ∈ (workflowSteps p fileOk).2.1) :
    ∃ m, p.milestone = some m ∧ a = m.complete.2.calculatePayment := by
  obtain ⟨pn, pc, pf, pm, pl⟩ := p
  cases pc with
  | none => simp [workflowSteps] at hmem
  | some c =>
  cases pf with
  | none => simp [workflowSteps] at hmem
  | some f =>
  cases pm with
  | none => simp [workflowSteps] at hmem
  | some m =>
  refine ⟨m, rfl, ?_⟩
  simp only [workflowSteps] at hmem
  cases hpm : m.paymentMethod with
  | none => rw [hpm] at hmem; simp at hmem
  | some pay =>
  rw [hpm] at hmem
  cases hres : m.complete.1 with
  | error e => rw [hres] at hmem; simp at hmem
  | ok uu =>
  cases uu
  rw [hres] at hmem
  by_cases hle : m.complete.2.calculatePayment ≤ 0
  · simp [hle] at hmem
  · cases hpm2 : m.complete.2.paymentMethod with
    | none => simp [hle, hpm2] at hmem
    | some pay2 =>
    cases pl with
    | none => simp [hle, hpm2, Payment.processPayment] at hmem
    | some lg =>
    cases fileOk with
    | false =>
      simp [hle, hpm2, Logger.logPaymentReceipt, Payment.processPayment] at hmem
    | true =>
      simp [hle, hpm2, Logger.logPaymentReceipt, Payment.processPayment] at hmem
      exact hmem.2.2.1

/-- An hourly project as built by the custom-input path: the hourly payment
object is constructed with amount 0 while the milestone computes 2 × 50. -/
def hourlyPaidZeroPayment : Project :=
  { projectName := "Hourly",
    client := some (User.client ⟨"c", "ce", "co"⟩),
    freelancer := some (User.freelancer ⟨"f", "fe", "sk", 50⟩),
    milestone := some (Milestone.hourly
      { title := "t", descr := "d", isCompleted := false,
        paymentMethod := some (Payment.direct 0), hoursWorked := 2,
        hourlyRate := 50 }),
    logger := some ⟨"payment_receipts.txt"⟩ }

/-- C10: every amount written to the receipt log by a workflow run is the
value of `calculatePayment()` on the completed milestone; the payment object's
own stored amount is not what gets logged, and the two can differ: on a run
whose hourly payment object was constructed with amount 0, the logged amount
is 100 while `getAmount()` is 0. -/
theorem logged_amount_from_calculatePayment :
    (∀ (p : Project) (fileOk : Bool) (fn t : String) (a : ℚ) (pt : String),
      Event.loggedReceipt fn t a pt ∈ (executeProjectWorkflow p fileOk).2.1 →
      ∃ m, p.milestone = some m ∧ a = m.complete.2.calculatePayment) ∧
    (Event.loggedReceipt "payment_receipts.txt" "t" 100 "Direct"
        ∈ (executeProjectWorkflow hourlyPaidZeroPayment true).2.1 ∧
      (∃ m, hourlyPaidZeroPayment.milestone = some m ∧
        m.paymentMethod = some (Payment.direct 0)) ∧
      (Payment.direct 0).getAmount ≠ 100) := by
  refine ⟨?_, ?_, ⟨_, rfl, rfl⟩, by norm_num [Payment.getAmount, Payment.amount]⟩
  · intro p fileOk fn t a pt hmem
    rcases exec_trace p fileOk with htr | ⟨e, htr⟩
    · rw [htr] at hmem
      exact steps_loggedReceipt p fileOk fn t a pt hmem
    · rw [htr] at hmem
      rcases List.mem_append.mp hmem with hin | hin
      · exact steps_loggedReceipt p fileOk fn t a pt hin
      · simp at hin
  · have htr : (executeProjectWorkflow hourlyPaidZeroPayment true).2.1
        = [Event.displayedUser (User.client ⟨"c", "ce", "co"⟩),
           Event.displayedUser (User.freelancer ⟨"f", "fe", "sk", 50⟩),
           Event.displayedMilestone "t" "d" false "Direct",
           Event.milestoneCompleted "t",
           Event.processedPayment "Direct" 0,
           Event.loggedReceipt "payment_receipts.txt" "t" 100 "Direct"] := by
      norm_num [executeProjectWorkflow, workflowSteps, hourlyPaidZeroPayment,
        Logger.logPaymentReceipt, Payment.processPayment, Payment.getPaymentType,
        Payment.amount, Milestone.complete, HourlyMilestone.complete,
        Milestone.calculatePayment, HourlyMilestone.calculatePayment,
        Milestone.title, Milestone.descr, Milestone.getIsCompleted,
        Milestone.paymentMethod]
    rw [htr]
    simp

/-- C10 witness: the concrete run's logged amount 100 really is the completed
milestone's `calculatePayment()`. -/
theorem logged_amount_from_calculatePayment_witness :
    ∃ m, hourlyPaidZeroPayment.milestone = some m ∧
      (100 : ℚ) = m.complete.2.calculatePayment :=
  logged_amount_from_calculatePayment.1 hourlyPaidZeroPayment true
    "payment_receipts.txt" "t" 100 "Direct"
    logged_amount_from_calculatePayment.2.1
